import Mathlib

/-!
Shallow embedding of the chat-api conversation service and websocket
gateway (src/src/chat/chat.service.ts, src/src/websockets, the entity
files).  Repositories are modelled as lists of rows; the TypeORM calls
findOne / findBy / save / update / remove / delete become list
operations; thrown NestJS exceptions become an Except error value; a
stateful method of the service becomes a function from ChatState to a
pair of a result and a new ChatState.  The Date clock is a Nat held in
the state; generated uuids come from a counter in the state.
-/

namespace ChatApi

/-- user.entity.ts: UserStatus enum. -/
inductive UserStatus where
  | online
  | offline
  | away
  | busy
deriving DecidableEq, Repr

/-- user.entity.ts: the columns of User the core reads and writes. -/
structure User where
  id : String
  username : String
  status : UserStatus
  lastSeen : Option Nat
deriving DecidableEq, Repr

/-- conversation.entity.ts: ConversationType enum. -/
inductive ConversationType where
  | direct
  | group
  | channel
deriving DecidableEq, Repr

/-- conversation.entity.ts: a Conversation row; the ManyToMany
participants relation is carried as the list of participant user ids
(the rows of the conversation_participants join table). -/
structure Conversation where
  id : String
  name : Option String
  type : ConversationType
  description : Option String
  avatar : Option String
  isPrivate : Bool
  createdBy : Option String
  lastActivity : Option Nat
  participants : List String
deriving DecidableEq, Repr

/-- message.entity.ts: MessageType enum. -/
inductive MessageType where
  | text
  | image
  | video
  | audio
  | file
  | system
deriving DecidableEq, Repr

/-- message.entity.ts: MessageStatus enum. -/
inductive MessageStatus where
  | sent
  | delivered
  | read
  | failed
deriving DecidableEq, Repr

/-- message.entity.ts: a Message row. -/
structure Message where
  id : String
  content : String
  type : MessageType
  status : MessageStatus
  senderId : String
  conversationId : String
  replyToId : Option String
  isEdited : Bool
  editedAt : Option Nat
  isDeleted : Bool
  deletedAt : Option Nat
  createdAt : Nat
deriving DecidableEq, Repr

/-- message.entity.ts: a MessageReaction row, unique per
(message, user, emoji) triple. -/
structure MessageReaction where
  id : String
  messageId : String
  userId : String
  emoji : String
  createdAt : Nat
deriving DecidableEq, Repr

/-- message.entity.ts: a MessageRead row, at most one per
(message, user) pair. -/
structure MessageRead where
  id : String
  messageId : String
  userId : String
  readAt : Nat
deriving DecidableEq, Repr

/-- conversation.entity.ts: a ConversationAdmin row. -/
structure ConversationAdmin where
  conversationId : String
  userId : String
deriving DecidableEq, Repr

/-- NestJS exceptions thrown by ChatService: NotFoundException and
ForbiddenException, with their message strings. -/
inductive ChatError where
  | notFound (msg : String)
  | forbidden (msg : String)
deriving DecidableEq, Repr

/-- chat.dto.ts: CreateConversationDto. -/
structure CreateConversationDto where
  name : Option String
  type : ConversationType
  description : Option String
  participantIds : List String
  isPrivate : Option Bool
deriving DecidableEq, Repr

/-- chat.dto.ts: UpdateConversationDto. -/
structure UpdateConversationDto where
  name : Option String
  description : Option String
  avatar : Option String
deriving DecidableEq, Repr

/-- chat.dto.ts: SendMessageDto (the opaque metadata blob is not
modelled; no claim touches it). -/
structure SendMessageDto where
  content : String
  type : MessageType
  replyToId : Option String
deriving DecidableEq, Repr

/-- The durable stores the service mutates, one list per repository,
plus the uuid counter and the wall clock read by new Date(). -/
structure ChatState where
  users : List User
  conversations : List Conversation
  messages : List Message
  reactions : List MessageReaction
  reads : List MessageRead
  admins : List ConversationAdmin
  nextId : Nat
  now : Nat
deriving DecidableEq, Repr

/-- A generated uuid for the next inserted row. -/
def ChatState.freshId (s : ChatState) : String :=
  "row" ++ toString s.nextId

/-- userRepository.findOne by primary key. -/
def findUser (s : ChatState) (userId : String) : Option User :=
  s.users.find? (fun u => u.id == userId)

/-- messageRepository.findOne by primary key. -/
def findMessage (s : ChatState) (messageId : String) : Option Message :=
  s.messages.find? (fun m => m.id == messageId)

/-- reactionRepository.findOne where messageId, userId, emoji. -/
def findReaction (s : ChatState) (messageId userId emoji : String) :
    Option MessageReaction :=
  s.reactions.find? (fun r =>
    r.messageId == messageId && r.userId == userId && r.emoji == emoji)

/-- readRepository.findOne where messageId, userId. -/
def findRead (s : ChatState) (messageId userId : String) : Option MessageRead :=
  s.reads.find? (fun r => r.messageId == messageId && r.userId == userId)

/-- Number of reaction rows with the given (message, user, emoji) key. -/
def countReaction (s : ChatState) (messageId userId emoji : String) : Nat :=
  s.reactions.countP (fun r =>
    r.messageId == messageId && r.userId == userId && r.emoji == emoji)

/-- Number of read-marker rows with the given (message, user) key. -/
def countRead (s : ChatState) (messageId userId : String) : Nat :=
  s.reads.countP (fun r => r.messageId == messageId && r.userId == userId)

/-- ChatService.getConversationById: one query that returns the
conversation only when the requester is among its participants, else
the single NotFoundException covering both absence and denial.  Pure
read, no state change. -/
def getConversationById (s : ChatState) (conversationId userId : String) :
    Except ChatError Conversation :=
  match s.conversations.find? (fun c =>
      c.id == conversationId && c.participants.contains userId) with
  | some c => .ok c
  | none => .error (.notFound "Conversation not found or access denied")

/-- ChatService.isUserAdmin. -/
def isUserAdmin (s : ChatState) (conversationId userId : String) : Bool :=
  (s.admins.find? (fun a =>
    a.conversationId == conversationId && a.userId == userId)).isSome

/-- messageRepository.findOne with the sender relation joined
(relations: sender): the row paired with the user row its senderId
resolves to. -/
def refetchWithSender (s : ChatState) (messageId : String) :
    Option (Message × Option User) :=
  (findMessage s messageId).map (fun m => (m, findUser s m.senderId))

/-- ChatService.reactToMessage: NotFound when no message row has this
id (no membership check, no isDeleted filter); then the toggle: an
existing (message, user, emoji) row is removed and null is returned
(modelled as ok none), otherwise a new row is created and returned. -/
def reactToMessage (s : ChatState) (messageId userId emoji : String) :
    Except ChatError (Option MessageReaction) × ChatState :=
  match findMessage s messageId with
  | none => (.error (.notFound "Message not found"), s)
  | some _ =>
    match findReaction s messageId userId emoji with
    | some existing =>
      (.ok none,
        { s with reactions := s.reactions.eraseP (fun r => r.id == existing.id) })
    | none =>
      let reaction : MessageReaction :=
        { id := s.freshId, messageId := messageId, userId := userId,
          emoji := emoji, createdAt := s.now }
      (.ok (some reaction),
        { s with reactions := s.reactions ++ [reaction],
                 nextId := s.nextId + 1 })

/-- One freshly generated read-marker row per still-unmarked message,
consecutive generated ids. -/
def mkReadRows (baseId : Nat) (userId : String) (now : Nat) :
    List Message → List MessageRead
  | [] => []
  | m :: ms =>
    { id := "row" ++ toString baseId, messageId := m.id, userId := userId,
      readAt := now } :: mkReadRows (baseId + 1) userId now ms

/-- ChatService.markAsRead: loads every message row of the conversation
(no membership check, no isDeleted filter; the DESC order of the query
does not change which markers exist), then inserts a read marker for
each message that lacks one for this user.  All the existence checks of
the Promise.all run against the state before any insert, which is what
the concurrent map over await findOne does.  Never throws. -/
def markAsRead (s : ChatState) (conversationId userId : String) :
    Except ChatError Unit × ChatState :=
  let msgs := s.messages.filter (fun m => m.conversationId == conversationId)
  let unread := msgs.filter (fun m => (findRead s m.id userId).isNone)
  (.ok (),
    { s with
      reads := s.reads ++ mkReadRows s.nextId userId s.now unread
      nextId := s.nextId + unread.length })

/-- ChatService.editMessage: the lookup is scoped to id AND senderId,
so a non-sender gets the NotFoundException; on success an update sets
content, isEdited and editedAt, and the row is refetched with its
sender joined (the cast of a null refetch is modelled as ok none). -/
def editMessage (s : ChatState) (messageId userId content : String) :
    Except ChatError (Option (Message × Option User)) × ChatState :=
  match s.messages.find? (fun m => m.id == messageId && m.senderId == userId) with
  | none => (.error (.notFound "Message not found or access denied"), s)
  | some _ =>
    let s1 := { s with messages := s.messages.map (fun m =>
      if m.id == messageId then
        { m with content := content, isEdited := true, editedAt := some s.now }
      else m) }
    (.ok (refetchWithSender s1 messageId), s1)

/-- ChatService.deleteMessage: NotFound when the row is absent;
Forbidden unless the requester is the sender or an admin of the owning
conversation; on success an update sets isDeleted and deletedAt. -/
def deleteMessage (s : ChatState) (messageId userId : String) :
    Except ChatError Unit × ChatState :=
  match findMessage s messageId with
  | none => (.error (.notFound "Message not found"), s)
  | some message =>
    let isOwner := message.senderId == userId
    let isAdmin := isUserAdmin s message.conversationId userId
    if !isOwner && !isAdmin then
      (.error (.forbidden "You can only delete your own messages"), s)
    else
      (.ok (),
        { s with messages := s.messages.map (fun m =>
            if m.id == messageId then
              { m with isDeleted := true, deletedAt := some s.now }
            else m) })

/-- The JS expression [...new Set(l)]: the list with later duplicates
dropped, first occurrences kept in order. -/
def dedupFirst (l : List String) : List String :=
  l.foldl (fun acc x => if x ∈ acc then acc else acc ++ [x]) []

/-- ChatService.findDirectConversation, the query: a conversation of
type direct whose participant rows intersected with the pair number
exactly two (WHERE participant.id IN (u1,u2) GROUP BY conversation
HAVING COUNT = 2); getOne is the first such row. -/
def directPairMatches (c : Conversation) (u1 u2 : String) : Bool :=
  c.type == ConversationType.direct &&
    (c.participants.filter (fun p => p == u1 || p == u2)).length == 2

def findDirectConversation (s : ChatState) (userId1 userId2 : String) :
    Option Conversation :=
  s.conversations.find? (fun c => directPairMatches c userId1 userId2)

/-- ChatService.createConversation: dedup the requester plus the listed
participants; NotFound unless every id resolves (findBy In, compared by
count); the direct short-circuit when the dedup set has two members;
otherwise insert the conversation with lastActivity = now, and for
non-direct types insert the creator admin row. -/
def createConversation (s : ChatState) (userId : String)
    (dto : CreateConversationDto) : Except ChatError Conversation × ChatState :=
  let allParticipantIds := dedupFirst (userId :: dto.participantIds)
  let participants := s.users.filter (fun u => allParticipantIds.contains u.id)
  if participants.length != allParticipantIds.length then
    (.error (.notFound "One or more participants not found"), s)
  else if dto.type == ConversationType.direct &&
      allParticipantIds.length == 2 then
    match findDirectConversation s (allParticipantIds.getD 0 "")
        (allParticipantIds.getD 1 "") with
    | some existing => (.ok existing, s)
    | none =>
      let conversation : Conversation :=
        { id := s.freshId, name := dto.name, type := dto.type,
          description := dto.description, avatar := none,
          isPrivate := dto.isPrivate.getD false, createdBy := some userId,
          lastActivity := some s.now,
          participants := participants.map (fun u => u.id) }
      (.ok conversation,
        { s with conversations := s.conversations ++ [conversation],
                 nextId := s.nextId + 1 })
  else
    let conversation : Conversation :=
      { id := s.freshId, name := dto.name, type := dto.type,
        description := dto.description, avatar := none,
        isPrivate := dto.isPrivate.getD false, createdBy := some userId,
        lastActivity := some s.now,
        participants := participants.map (fun u => u.id) }
    let s1 : ChatState :=
      { s with conversations := s.conversations ++ [conversation],
               nextId := s.nextId + 1 }
    if dto.type == ConversationType.direct then
      (.ok conversation, s1)
    else
      (.ok conversation,
        { s1 with admins := s1.admins ++
            [{ conversationId := conversation.id, userId := userId }] })

/-- Object.assign(conversation, updateDto): fields present in the patch
overwrite, absent fields stay. -/
def applyPatch (c : Conversation) (dto : UpdateConversationDto) : Conversation :=
  { c with
    name := match dto.name with | some n => some n | none => c.name,
    description := match dto.description with
      | some d => some d | none => c.description,
    avatar := match dto.avatar with | some a => some a | none => c.avatar }

/-- conversationRepository.save of an existing row: replace by primary
key. -/
def saveConversationRow (s : ChatState) (c : Conversation) : ChatState :=
  { s with conversations := s.conversations.map (fun c0 =>
      if c0.id == c.id then c else c0) }

/-- ChatService.updateConversation: membership-gated read, then for
non-direct types an admin check (Forbidden otherwise), then the patch
is applied and saved. -/
def updateConversation (s : ChatState) (conversationId userId : String)
    (dto : UpdateConversationDto) : Except ChatError Conversation × ChatState :=
  match getConversationById s conversationId userId with
  | .error e => (.error e, s)
  | .ok conversation =>
    if conversation.type != ConversationType.direct &&
        !(isUserAdmin s conversationId userId) then
      (.error (.forbidden "Only admins can update conversation details"), s)
    else
      let updated := applyPatch conversation dto
      (.ok updated, saveConversationRow s updated)

/-- ChatService.sendMessage: membership check, insert the message with
status sent, update lastActivity on the conversation row, refetch with
sender joined. -/
def sendMessage (s : ChatState) (conversationId userId : String)
    (dto : SendMessageDto) :
    Except ChatError (Option (Message × Option User)) × ChatState :=
  match getConversationById s conversationId userId with
  | .error e => (.error e, s)
  | .ok _ =>
    let message : Message :=
      { id := s.freshId, content := dto.content, type := dto.type,
        status := MessageStatus.sent, senderId := userId,
        conversationId := conversationId, replyToId := dto.replyToId,
        isEdited := false, editedAt := none, isDeleted := false,
        deletedAt := none, createdAt := s.now }
    let s1 : ChatState :=
      { s with messages := s.messages ++ [message], nextId := s.nextId + 1 }
    let s2 : ChatState :=
      { s1 with conversations := s1.conversations.map (fun c =>
          if c.id == conversationId then { c with lastActivity := some s1.now }
          else c) }
    (.ok (refetchWithSender s2 message.id), s2)

/-- Insertion into a list kept newest-first by createdAt (strict
comparison, so earlier rows stay in front of equal timestamps). -/
def insertDesc (m : Message) : List Message → List Message
  | [] => [m]
  | x :: xs =>
    if x.createdAt < m.createdAt then m :: x :: xs else x :: insertDesc m xs

/-- The ORDER BY createdAt DESC of the message query. -/
def sortDescCreatedAt (l : List Message) : List Message :=
  l.foldr insertDesc []

/-- ChatService.getMessages: membership-gated; findAndCount over the
non-deleted messages of the conversation ordered newest-first with
skip (page-1)*limit and take limit, the window then reversed to
chronological order; total is the full non-deleted count.  Pure read. -/
def getMessages (s : ChatState) (conversationId userId : String)
    (page limit : Nat) : Except ChatError (List Message × Nat) :=
  match getConversationById s conversationId userId with
  | .error e => .error e
  | .ok _ =>
    let nonDeleted := s.messages.filter (fun m =>
      m.conversationId == conversationId && m.isDeleted == false)
    let window := ((sortDescCreatedAt nonDeleted).drop ((page - 1) * limit)).take limit
    .ok (window.reverse, nonDeleted.length)

/-- ChatService.addParticipant: membership-gated read; Forbidden on
direct conversations; Forbidden unless the requester is admin; NotFound
when the target user is absent; then the target id is pushed onto the
participants relation and the row saved. -/
def addParticipant (s : ChatState) (conversationId userId targetUserId : String) :
    Except ChatError Unit × ChatState :=
  match getConversationById s conversationId userId with
  | .error e => (.error e, s)
  | .ok conversation =>
    if conversation.type == ConversationType.direct then
      (.error (.forbidden "Cannot add participants to direct conversations"), s)
    else if !(isUserAdmin s conversationId userId) then
      (.error (.forbidden "Only admins can add participants"), s)
    else
      match findUser s targetUserId with
      | none => (.error (.notFound "User not found"), s)
      | some newParticipant =>
        (.ok (),
          saveConversationRow s
            { conversation with participants :=
                conversation.participants ++ [newParticipant.id] })

/-- ChatService.removeParticipant: membership-gated read; Forbidden on
direct conversations; Forbidden unless the requester is admin or is
removing themself; then the participant list is filtered, the row
saved, and any admin row of the removed user deleted. -/
def removeParticipant (s : ChatState) (conversationId userId participantId : String) :
    Except ChatError Unit × ChatState :=
  match getConversationById s conversationId userId with
  | .error e => (.error e, s)
  | .ok conversation =>
    if conversation.type == ConversationType.direct then
      (.error (.forbidden "Cannot remove participants from direct conversations"), s)
    else
      let isAdmin := isUserAdmin s conversationId userId
      let isRemovingSelf := userId == participantId
      if !isAdmin && !isRemovingSelf then
        (.error (.forbidden "Only admins can remove other participants"), s)
      else
        let s1 := saveConversationRow s
          { conversation with participants :=
              conversation.participants.filter (fun p => p != participantId) }
        (.ok (),
          { s1 with admins := s1.admins.filter (fun a =>
              !(a.conversationId == conversationId && a.userId == participantId)) })

/-- UsersService.updateStatus: update the user row status and
lastSeen. -/
def updateStatus (users : List User) (userId : String) (status : UserStatus)
    (now : Nat) : List User :=
  users.map (fun u =>
    if u.id == userId then { u with status := status, lastSeen := some now }
    else u)

/-- chat.gateway.ts: the in-memory presence map connectedUsers
(userId to the Set of live socket ids) together with the durable user
store the gateway writes status into through UsersService. -/
structure GatewayState where
  connectedUsers : List (String × List String)
  users : List User
deriving DecidableEq, Repr

/-- The broadcasts the gateway emits on connect and disconnect. -/
inductive GatewayEvent where
  | userOnline (userId : String)
  | userOffline (userId : String)
deriving DecidableEq, Repr

/-- connectedUsers.get(userId). -/
def lookupConnections (entries : List (String × List String))
    (userId : String) : Option (List String) :=
  (entries.find? (fun e => e.1 == userId)).map (fun e => e.2)

/-- Write back the socket set of one user. -/
def setConnections (entries : List (String × List String))
    (userId : String) (sockets : List String) : List (String × List String) :=
  entries.map (fun e => if e.1 == userId then (userId, sockets) else e)

/-- ChatGateway.handleConnection after authentication succeeded for
this user: create the socket set if absent, add the socket id, set the
durable status online, broadcast user:online. -/
def handleConnection (gs : GatewayState) (userId connectionId : String)
    (now : Nat) : GatewayState × List GatewayEvent :=
  let current := (lookupConnections gs.connectedUsers userId).getD []
  let entries0 := if (lookupConnections gs.connectedUsers userId).isSome then
      gs.connectedUsers
    else gs.connectedUsers ++ [(userId, [])]
  let sockets := if current.contains connectionId then current
    else current ++ [connectionId]
  ({ connectedUsers := setConnections entries0 userId sockets,
     users := updateStatus gs.users userId UserStatus.online now },
   [GatewayEvent.userOnline userId])

/-- ChatGateway.handleDisconnect for an authenticated socket: remove
the socket id from the user set; only when the set becomes empty is the
entry removed, the durable status set offline, and the single
user:offline broadcast emitted. -/
def handleDisconnect (gs : GatewayState) (userId connectionId : String)
    (now : Nat) : GatewayState × List GatewayEvent :=
  match lookupConnections gs.connectedUsers userId with
  | none => (gs, [])
  | some sockets =>
    let remaining := sockets.erase connectionId
    if remaining.isEmpty then
      ({ connectedUsers := gs.connectedUsers.filter (fun e => e.1 != userId),
         users := updateStatus gs.users userId UserStatus.offline now },
       [GatewayEvent.userOffline userId])
    else
      ({ gs with connectedUsers :=
          setConnections gs.connectedUsers userId remaining }, [])

/-! ## Theorems -/


/-- Helper: find? over an append whose first part has no match. -/
theorem find?_append_of_none {α : Type} {p : α → Bool}
    {l1 l2 : List α} (h : l1.find? p = none) :
    (l1 ++ l2).find? p = l2.find? p := by
  rw [List.find?_append, h, Option.none_or]

/-- The reaction row the first toggle call inserts. -/
def newReactionRow (s : ChatState) (mid uid emoji : String) : MessageReaction :=
  { id := s.freshId
    messageId := mid
    userId := uid
    emoji := emoji
    createdAt := s.now }

/-- Claim C2: for an existing message m, user u and emoji e, starting
from a state with no (m, u, e) reaction row (and a genuinely fresh next
row id), reactToMessage is a toggle that is its own inverse: the first
call creates and returns the reaction, the second call deletes it and
returns null, restoring the reaction table, and a third call returns a
reaction again; the (m, u, e) row count after the three calls is 1,
then 0, then 1, so at most one such row ever exists. -/
theorem reactToMessage_toggle (s : ChatState) (mid uid emoji : String)
    (m : Message) (hm : findMessage s mid = some m)
    (h0 : findReaction s mid uid emoji = none)
    (hfresh : ∀ r ∈ s.reactions, r.id ≠ s.freshId) :
    ∃ r1,
      (reactToMessage s mid uid emoji).1 = .ok (some r1) ∧
      r1.messageId = mid ∧ r1.userId = uid ∧ r1.emoji = emoji ∧
      countReaction (reactToMessage s mid uid emoji).2 mid uid emoji = 1 ∧
      (reactToMessage (reactToMessage s mid uid emoji).2 mid uid
        emoji).1 = .ok none ∧
      ((reactToMessage (reactToMessage s mid uid emoji).2 mid uid
        emoji).2).reactions = s.reactions ∧
      countReaction (reactToMessage (reactToMessage s mid uid
        emoji).2 mid uid emoji).2 mid uid emoji = 0 ∧
      ∃ r3,
        (reactToMessage (reactToMessage (reactToMessage s mid uid
          emoji).2 mid uid emoji).2 mid uid emoji).1 = .ok (some r3) ∧
        countReaction (reactToMessage (reactToMessage (reactToMessage
          s mid uid emoji).2 mid uid emoji).2 mid uid emoji).2 mid uid
          emoji = 1 := by
  have hfind0 : ∀ r ∈ s.reactions,
      ¬ (r.messageId == mid && r.userId == uid && r.emoji == emoji) = true := by
    rw [findReaction, List.find?_eq_none] at h0
    exact h0
  have hcnt0 : countReaction s mid uid emoji = 0 := by
    rw [countReaction, List.countP_eq_zero]
    exact hfind0
  have hpre : ∀ r ∈ s.reactions, ¬ (r.id == s.freshId) = true := by
    intro r hr
    simpa using hfresh r hr
  have e1 : reactToMessage s mid uid emoji =
      (.ok (some (newReactionRow s mid uid emoji)),
       { s with
         reactions := s.reactions ++ [newReactionRow s mid uid emoji]
         nextId := s.nextId + 1 }) := by
    simp only [reactToMessage, hm, h0]
    rfl
  have hm1 : findMessage
      { s with
        reactions := s.reactions ++ [newReactionRow s mid uid emoji]
        nextId := s.nextId + 1 } mid = some m := hm
  have hfind1 : findReaction
      { s with
        reactions := s.reactions ++ [newReactionRow s mid uid emoji]
        nextId := s.nextId + 1 } mid uid emoji =
      some (newReactionRow s mid uid emoji) := by
    rw [findReaction] at h0 ⊢
    show (s.reactions ++ [newReactionRow s mid uid emoji]).find? _ = _
    rw [find?_append_of_none h0]
    simp [newReactionRow]
  have herase : (s.reactions ++ [newReactionRow s mid uid emoji]).eraseP
      (fun r => r.id == (newReactionRow s mid uid emoji).id) = s.reactions := by
    simp only [newReactionRow]
    rw [List.eraseP_append_right _ hpre]
    simp [List.eraseP_cons]
  have e2 : reactToMessage
      { s with
        reactions := s.reactions ++ [newReactionRow s mid uid emoji]
        nextId := s.nextId + 1 } mid uid emoji =
      (.ok none,
       { s with
         reactions := s.reactions
         nextId := s.nextId + 1 }) := by
    simp only [reactToMessage, hm1, hfind1]
    rw [Prod.mk.injEq]
    refine ⟨rfl, ?_⟩
    rw [ChatState.mk.injEq]
    exact ⟨rfl, rfl, rfl, herase, rfl, rfl, rfl, rfl⟩
  have hm2 : findMessage
      { s with
        reactions := s.reactions
        nextId := s.nextId + 1 } mid = some m := hm
  have hfind2 : findReaction
      { s with
        reactions := s.reactions
        nextId := s.nextId + 1 } mid uid emoji = none := h0
  have e3 : reactToMessage
      { s with
        reactions := s.reactions
        nextId := s.nextId + 1 } mid uid emoji =
      (.ok (some (newReactionRow
         { s with
           reactions := s.reactions
           nextId := s.nextId + 1 } mid uid emoji)),
       { s with
         reactions := s.reactions ++ [newReactionRow
           { s with
             reactions := s.reactions
             nextId := s.nextId + 1 } mid uid emoji]
         nextId := s.nextId + 1 + 1 }) := by
    simp only [reactToMessage, hm2, hfind2]
    rfl
  refine ⟨newReactionRow s mid uid emoji, ?_, rfl, rfl, rfl, ?_, ?_, ?_, ?_,
    ⟨newReactionRow
      { s with
        reactions := s.reactions
        nextId := s.nextId + 1 } mid uid emoji, ?_, ?_⟩⟩
  · rw [e1]
  · rw [e1]
    rw [countReaction] at hcnt0 ⊢
    show ((s.reactions ++ [newReactionRow s mid uid emoji]).countP _) = 1
    rw [List.countP_append, hcnt0]
    simp [newReactionRow]
  · simp only [e1, e2]
  · simp only [e1, e2]
  · simp only [e1, e2]
    rw [countReaction] at hcnt0 ⊢
    exact hcnt0
  · simp only [e1, e2, e3]
  · simp only [e1, e2, e3]
    rw [countReaction] at hcnt0 ⊢
    show ((s.reactions ++ [_]).countP _) = 1
    rw [List.countP_append, hcnt0]
    simp [newReactionRow]

/-- Helper: what a generated read-marker batch contains. -/
theorem mkReadRows_mem {uid : String} {now : Nat} :
    ∀ (l : List Message) (baseId : Nat) (r : MessageRead),
      r ∈ mkReadRows baseId uid now l →
      ∃ m ∈ l, r.messageId = m.id ∧ r.userId = uid := by
  intro l
  induction l with
  | nil =>
    intro b r h
    simp [mkReadRows] at h
  | cons m ms ih =>
    intro b r h
    rw [mkReadRows, List.mem_cons] at h
    rcases h with h1 | h2
    · subst h1
      exact ⟨m, List.mem_cons_self m ms, rfl, rfl⟩
    · obtain ⟨m0, hm0, h3, h4⟩ := ih (b + 1) r h2
      exact ⟨m0, List.mem_cons_of_mem m hm0, h3, h4⟩

/-- Helper: every listed message gets a generated marker. -/
theorem mkReadRows_exists {uid : String} {now : Nat} :
    ∀ (l : List Message) (baseId : Nat) (m : Message), m ∈ l →
      ∃ r ∈ mkReadRows baseId uid now l, r.messageId = m.id ∧ r.userId = uid := by
  intro l
  induction l with
  | nil =>
    intro b m h
    simp at h
  | cons m0 ms ih =>
    intro b m h
    rw [List.mem_cons] at h
    rcases h with h1 | h2
    · subst h1
      exact ⟨_, List.mem_cons_self _ _, rfl, rfl⟩
    · obtain ⟨r, hr, h3, h4⟩ := ih (b + 1) m h2
      exact ⟨r, List.mem_cons_of_mem _ hr, h3, h4⟩

/-- Helper: how many generated markers hit a given (message, user)
key. -/
theorem mkReadRows_countP (uid : String) (now : Nat) (mid u0 : String) :
    ∀ (l : List Message) (baseId : Nat),
      (mkReadRows baseId uid now l).countP
        (fun r => r.messageId == mid && r.userId == u0) =
      (if uid = u0 then l.countP (fun m => m.id == mid) else 0) := by
  intro l
  induction l with
  | nil =>
    intro b
    simp [mkReadRows]
  | cons m ms ih =>
    intro b
    rw [mkReadRows, List.countP_cons, ih (b + 1)]
    by_cases h : uid = u0
    · subst h
      simp [List.countP_cons]
    · have : ((uid : String) == u0) = false := by
        simpa using h
      simp [h, this]

/-- Helper: with pairwise distinct message ids, at most one row of a
message list carries a given id. -/
theorem countP_id_le_one :
    ∀ {l : List Message}, (l.map Message.id).Nodup →
      ∀ mid, l.countP (fun m => m.id == mid) ≤ 1 := by
  intro l
  induction l with
  | nil =>
    intro _ mid
    simp
  | cons m ms ih =>
    intro h mid
    rw [List.map_cons, List.nodup_cons] at h
    rw [List.countP_cons]
    by_cases hm : m.id = mid
    · have hz : ms.countP (fun x => x.id == mid) = 0 := by
        rw [List.countP_eq_zero]
        intro x hx hbeq
        apply h.1
        rw [List.mem_map]
        refine ⟨x, hx, ?_⟩
        have : x.id = mid := by simpa using hbeq
        rw [this, hm]
      simp [hz, hm]
    · have : (m.id == mid) = false := by simpa using hm
      simpa [this] using ih h.2 mid

/-- Helper: after markAsRead, every message of the conversation has a
read marker for this user, soft-deleted ones included. -/
theorem markAsRead_isSome_after (s : ChatState) (cid uid : String)
    (m : Message) (hm : m ∈ s.messages) (hc : m.conversationId = cid) :
    (findRead (markAsRead s cid uid).2 m.id uid).isSome = true := by
  simp only [markAsRead, findRead]
  cases hfr : s.reads.find? (fun r => r.messageId == m.id && r.userId == uid) with
  | some r =>
    rw [List.find?_append, hfr]
    simp
  | none =>
    rw [find?_append_of_none hfr]
    have hmem : m ∈ (s.messages.filter
        (fun x => x.conversationId == cid)).filter
        (fun x => (findRead s x.id uid).isNone) := by
      rw [List.mem_filter, List.mem_filter]
      refine ⟨⟨hm, by simp [hc]⟩, ?_⟩
      rw [findRead, hfr]
      rfl
    obtain ⟨r, hr, h3, h4⟩ := mkReadRows_exists _ s.nextId m hmem
    rw [List.find?_isSome]
    exact ⟨r, hr, by simp [h3, h4]⟩

/-- Helper: the exact (message, user) marker count after markAsRead. -/
theorem markAsRead_countRead (s : ChatState) (cid uid mid u0 : String) :
    countRead (markAsRead s cid uid).2 mid u0 =
      countRead s mid u0 +
        (if uid = u0 then
          ((s.messages.filter (fun m => m.conversationId == cid)).filter
            (fun m => (findRead s m.id uid).isNone)).countP
            (fun m => m.id == mid)
         else 0) := by
  simp only [markAsRead, countRead]
  rw [List.countP_append, mkReadRows_countP]

/-- Claim C3: markAsRead is idempotent: a second call for the same
(conversation, user) returns the same result and leaves the state of
the first call untouched; moreover a call inserts a marker only for
messages of the conversation that lack one for this user, and (for a
state whose marker table has at most one row per (message, user) pair
and whose message ids are pairwise distinct) never produces a duplicate
(message, user) marker. -/
theorem markAsRead_idempotent (s : ChatState) (cid uid : String)
    (hnodup : (s.messages.map Message.id).Nodup)
    (hone : ∀ mid u0, countRead s mid u0 ≤ 1) :
    markAsRead (markAsRead s cid uid).2 cid uid = markAsRead s cid uid ∧
    (∀ mid u0, countRead (markAsRead s cid uid).2 mid u0 ≤ 1) ∧
    (∀ mid, (findRead s mid uid).isSome = true →
      countRead (markAsRead s cid uid).2 mid uid = countRead s mid uid) ∧
    (∀ mid, (∀ m ∈ s.messages, ¬ (m.id = mid ∧ m.conversationId = cid)) →
      countRead (markAsRead s cid uid).2 mid uid = countRead s mid uid) := by
  refine ⟨?_, ?_, ?_, ?_⟩
  · have hnil : ((markAsRead s cid uid).2.messages.filter
        (fun m => m.conversationId == cid)).filter
        (fun m => (findRead (markAsRead s cid uid).2 m.id uid).isNone) = [] := by
      rw [List.filter_eq_nil_iff]
      intro m hmem
      rw [List.mem_filter] at hmem
      have hm : m ∈ s.messages := by
        have := hmem.1
        simpa only [markAsRead] using this
      have hc : m.conversationId = cid := by simpa using hmem.2
      have hs := markAsRead_isSome_after s cid uid m hm hc
      intro hEq
      rw [Option.isNone_iff_eq_none] at hEq
      rw [hEq] at hs
      simp at hs
    conv_lhs => rw [markAsRead]
    simp only at hnil ⊢
    rw [hnil]
    simp [mkReadRows, markAsRead]
  · intro mid u0
    rw [markAsRead_countRead]
    by_cases hu : uid = u0
    · subst hu
      rw [if_pos rfl]
      cases hfr : s.reads.find? (fun r => r.messageId == mid && r.userId == uid) with
      | some r =>
        have hz : ((s.messages.filter (fun m => m.conversationId == cid)).filter
            (fun m => (findRead s m.id uid).isNone)).countP
            (fun m => m.id == mid) = 0 := by
          rw [List.countP_eq_zero]
          intro m hmem hbeq
          rw [List.mem_filter] at hmem
          have hid : m.id = mid := by simpa using hbeq
          rw [findRead, hid, hfr] at hmem
          simp at hmem
        rw [hz]
        simpa using hone mid uid
      | none =>
        have h0 : countRead s mid uid = 0 := by
          rw [countRead, List.countP_eq_zero]
          rw [List.find?_eq_none] at hfr
          exact hfr
        rw [h0]
        have hsub : ((s.messages.filter (fun m => m.conversationId == cid)).filter
            (fun m => (findRead s m.id uid).isNone)).countP
            (fun m => m.id == mid) ≤
            s.messages.countP (fun m => m.id == mid) := by
          exact List.Sublist.countP_le _
            (List.Sublist.trans (List.filter_sublist _) (List.filter_sublist _))
        have := countP_id_le_one hnodup mid
        omega
    · rw [if_neg hu]
      simpa using hone mid u0
  · intro mid hsome
    rw [markAsRead_countRead, if_pos rfl]
    have hz : ((s.messages.filter (fun m => m.conversationId == cid)).filter
        (fun m => (findRead s m.id uid).isNone)).countP
        (fun m => m.id == mid) = 0 := by
      rw [List.countP_eq_zero]
      intro m hmem hbeq
      rw [List.mem_filter] at hmem
      have hid : m.id = mid := by simpa using hbeq
      rw [findRead] at hmem
      rw [hid] at hmem
      rw [findRead] at hsome
      rcases hmem with ⟨_, hnone⟩
      rw [Option.isNone_iff_eq_none] at hnone
      rw [hnone] at hsome
      simp at hsome
    rw [hz]
    omega
  · intro mid hno
    rw [markAsRead_countRead, if_pos rfl]
    have hz : ((s.messages.filter (fun m => m.conversationId == cid)).filter
        (fun m => (findRead s m.id uid).isNone)).countP
        (fun m => m.id == mid) = 0 := by
      rw [List.countP_eq_zero]
      intro m hmem hbeq
      rw [List.mem_filter, List.mem_filter] at hmem
      have hid : m.id = mid := by simpa using hbeq
      have hc : m.conversationId = cid := by
        have := hmem.1.2
        simpa using this
      exact hno m hmem.1.1 ⟨hid, hc⟩
    rw [hz]
    omega

/-- Claim C10: markAsRead performs no conversation-membership check and
does not exclude soft-deleted messages: for every conversation and
every user whatsoever it returns ok (it never fails with NotFound or
Forbidden), and after the call every message of the conversation has a
read marker for that user, soft-deleted messages included. -/
theorem markAsRead_no_membership_check (s : ChatState) (cid uid : String) :
    (markAsRead s cid uid).1 = .ok () ∧
    (∀ m ∈ s.messages, m.conversationId = cid →
      (findRead (markAsRead s cid uid).2 m.id uid).isSome = true) ∧
    (∀ m ∈ s.messages, m.conversationId = cid → m.isDeleted = true →
      (findRead (markAsRead s cid uid).2 m.id uid).isSome = true) := by
  refine ⟨rfl, ?_, ?_⟩
  · intro m hm hc
    exact markAsRead_isSome_after s cid uid m hm hc
  · intro m hm hc _
    exact markAsRead_isSome_after s cid uid m hm hc

/-- Claim C9: reactToMessage performs no conversation-membership check:
the user argument here is arbitrary (participant of the owning
conversation or not) and the found message may be soft-deleted, yet the
call fails with NotFound exactly when no message row has the id, and
otherwise succeeds, removing an existing (message, user, emoji) row or
creating one. -/
theorem reactToMessage_no_membership_check (s : ChatState)
    (mid uid emoji : String) :
    ((reactToMessage s mid uid emoji).1 =
        .error (.notFound "Message not found") ↔ findMessage s mid = none) ∧
    (findMessage s mid = none → (reactToMessage s mid uid emoji).2 = s) ∧
    (∀ m, findMessage s mid = some m →
      (∀ r0, findReaction s mid uid emoji = some r0 →
        (reactToMessage s mid uid emoji).1 = .ok none) ∧
      (findReaction s mid uid emoji = none →
        ∃ r, (reactToMessage s mid uid emoji).1 = .ok (some r) ∧
          r.messageId = mid ∧ r.userId = uid ∧ r.emoji = emoji)) := by
  refine ⟨⟨?_, ?_⟩, ?_, ?_⟩
  · intro h
    cases hm : findMessage s mid with
    | none => rfl
    | some m =>
      rw [reactToMessage, hm] at h
      cases hr : findReaction s mid uid emoji with
      | some r0 =>
        rw [hr] at h
        simp at h
      | none =>
        rw [hr] at h
        simp at h
  · intro h
    rw [reactToMessage, h]
  · intro h
    rw [reactToMessage, h]
  · intro m hm
    constructor
    · intro r0 hr
      rw [reactToMessage, hm, hr]
    · intro hr
      rw [reactToMessage, hm, hr]
      exact ⟨newReactionRow s mid uid emoji, rfl, rfl, rfl, rfl⟩

/-- Helper: a map that rewrites rows by primary key does not move the
row found by an id-only query; finding by id then mapping is mapping
the found row. -/
theorem find?_id_map (l : List Message) (mid : String)
    (g : Message → Message) (hg : ∀ m, (g m).id = m.id) :
    (l.map (fun m => if m.id == mid then g m else m)).find?
        (fun m => m.id == mid) =
      (l.find? (fun m => m.id == mid)).map
        (fun m => if m.id == mid then g m else m) := by
  rw [List.find?_map]
  have hco : ((fun m => m.id == mid) ∘
      fun m => if m.id == mid then g m else m) = (fun m => m.id == mid) := by
    funext m
    by_cases h : m.id = mid
    · simp [h, hg]
    · simp [h]
  rw [hco]

/-- Claim C6: editMessage looks the message up by id AND senderId, so
for an existing message a requester other than the sender receives the
NotFoundException (never Forbidden) and the state is untouched, while
the sender gets the updated row (edited flag, edited timestamp, new
content) with the sender row joined. -/
theorem editMessage_sender_scoped (s : ChatState) (mid uid content : String)
    (hnodup : (s.messages.map Message.id).Nodup) (m : Message)
    (hm : findMessage s mid = some m) :
    (m.senderId ≠ uid →
      editMessage s mid uid content =
        (.error (.notFound "Message not found or access denied"), s)) ∧
    (m.senderId = uid →
      ∃ m', (editMessage s mid uid content).1 =
          .ok (some (m', findUser s m.senderId)) ∧
        m'.id = m.id ∧ m'.content = content ∧ m'.isEdited = true ∧
        m'.editedAt = some s.now ∧ m'.senderId = m.senderId) := by
  have hmem : m ∈ s.messages := List.mem_of_find?_eq_some hm
  have hid : m.id = mid := by
    have := List.find?_some hm
    simpa using this
  have hinj := List.inj_on_of_nodup_map hnodup
  constructor
  · intro hne
    have hnone : s.messages.find?
        (fun x => x.id == mid && x.senderId == uid) = none := by
      rw [List.find?_eq_none]
      intro x hx hpx
      rw [Bool.and_eq_true, beq_iff_eq, beq_iff_eq] at hpx
      have hxm : x = m := hinj hx hmem (by rw [hpx.1, hid])
      rw [hxm] at hpx
      exact hne hpx.2
    rw [editMessage, hnone]
  · intro hsend
    have hsome : s.messages.find?
        (fun x => x.id == mid && x.senderId == uid) = some m := by
      have hiss : (s.messages.find?
          (fun x => x.id == mid && x.senderId == uid)).isSome = true := by
        rw [List.find?_isSome]
        exact ⟨m, hmem, by simp [hid, hsend]⟩
      cases hfx : s.messages.find?
          (fun x => x.id == mid && x.senderId == uid) with
      | none => rw [hfx] at hiss; simp at hiss
      | some x =>
        have hxmem := List.mem_of_find?_eq_some hfx
        have hpx := List.find?_some hfx
        rw [Bool.and_eq_true, beq_iff_eq, beq_iff_eq] at hpx
        have hxm : x = m := hinj hxmem hmem (by rw [hpx.1, hid])
        rw [hxm]
    rw [editMessage, hsome]
    refine ⟨{ m with
        content := content
        isEdited := true
        editedAt := some s.now }, ?_, rfl, rfl, rfl, rfl, rfl⟩
    simp only [refetchWithSender, findMessage]
    rw [find?_id_map _ _ _ (by intro x; rfl)]
    rw [findMessage] at hm
    rw [hm]
    simp [hid]
    rfl


/-- Helper: insertion into the newest-first list preserves the element
set. -/
theorem mem_insertDesc {x m : Message} :
    ∀ {l : List Message}, x ∈ insertDesc m l ↔ x = m ∨ x ∈ l := by
  intro l
  induction l with
  | nil => simp [insertDesc]
  | cons y ys ih =>
    rw [insertDesc]
    by_cases h : y.createdAt < m.createdAt
    · simp [h]
    · rw [if_neg h]
      rw [List.mem_cons, List.mem_cons, ih]
      tauto

/-- Helper: the newest-first sort preserves the element set. -/
theorem mem_sortDescCreatedAt {x : Message} :
    ∀ {l : List Message}, x ∈ sortDescCreatedAt l ↔ x ∈ l := by
  intro l
  induction l with
  | nil => simp [sortDescCreatedAt]
  | cons y ys ih =>
    rw [sortDescCreatedAt, List.foldr_cons]
    rw [show List.foldr insertDesc [] ys = sortDescCreatedAt ys from rfl]
    rw [mem_insertDesc, List.mem_cons, ih]

/-- Claim C4: on a conversation whose non-deleted messages are
m1, m2, m3 in strictly chronological order, a participant requester
calling getMessages with page 1, limit 2 receives [m2, m3] in
chronological order with total 3; in general every returned message is
a non-deleted message of the conversation and total counts exactly the
non-deleted messages, so soft-deleted messages are never returned or
counted. -/
theorem getMessages_pagination (s : ChatState) (cid uid : String)
    (conv : Conversation) (hconv : getConversationById s cid uid = .ok conv)
    (m1 m2 m3 : Message)
    (hmsgs : s.messages.filter
        (fun m => m.conversationId == cid && m.isDeleted == false) =
      [m1, m2, m3])
    (h12 : m1.createdAt < m2.createdAt) (h23 : m2.createdAt < m3.createdAt) :
    getMessages s cid uid 1 2 = .ok ([m2, m3], 3) ∧
    (∀ page limit msgs total,
      getMessages s cid uid page limit = .ok (msgs, total) →
      (∀ m ∈ msgs, m.isDeleted = false ∧ m.conversationId = cid) ∧
      total = (s.messages.filter (fun m =>
        m.conversationId == cid && m.isDeleted == false)).length) := by
  constructor
  · simp only [getMessages, hconv, hmsgs]
    have hs3 : insertDesc m3 [] = [m3] := rfl
    have hs2 : insertDesc m2 [m3] = [m3, m2] := by
      rw [insertDesc, if_neg (Nat.lt_asymm h23), insertDesc]
    have hs1 : insertDesc m1 [m3, m2] = [m3, m2, m1] := by
      rw [insertDesc, if_neg (Nat.lt_asymm (Nat.lt_trans h12 h23))]
      rw [insertDesc, if_neg (Nat.lt_asymm h12), insertDesc]
    rw [show sortDescCreatedAt [m1, m2, m3] =
        insertDesc m1 (insertDesc m2 (insertDesc m3 [])) from rfl]
    rw [hs3, hs2, hs1]
    rfl
  · intro page limit msgs total h
    rw [getMessages, hconv] at h
    simp only [Except.ok.injEq, Prod.mk.injEq] at h
    constructor
    · intro m hmem
      rw [← h.1] at hmem
      rw [List.mem_reverse] at hmem
      have hsorted : m ∈ sortDescCreatedAt (s.messages.filter (fun m =>
          m.conversationId == cid && m.isDeleted == false)) :=
        List.mem_of_mem_drop (List.mem_of_mem_take hmem)
      rw [mem_sortDescCreatedAt, List.mem_filter, Bool.and_eq_true,
        beq_iff_eq, beq_iff_eq] at hsorted
      exact ⟨hsorted.2.2, hsorted.2.1⟩
    · exact h.2.symm

/-- Concrete fixtures for the closed instance theorems below. -/
def sampleUser1 : User :=
  { id := "u1", username := "alice", status := UserStatus.offline, lastSeen := none }

def sampleUser2 : User :=
  { id := "u2", username := "bob", status := UserStatus.offline, lastSeen := none }

def sampleUser3 : User :=
  { id := "u3", username := "carol", status := UserStatus.offline, lastSeen := none }

def sampleDirectConv : Conversation :=
  { id := "c1"
    name := none
    type := ConversationType.direct
    description := none
    avatar := none
    isPrivate := false
    createdBy := some "u1"
    lastActivity := some 1
    participants := ["u1", "u2"] }

def sampleMsg : Message :=
  { id := "m1"
    content := "hello"
    type := MessageType.text
    status := MessageStatus.sent
    senderId := "u1"
    conversationId := "c1"
    replyToId := none
    isEdited := false
    editedAt := none
    isDeleted := false
    deletedAt := none
    createdAt := 5 }

def sampleState : ChatState :=
  { users := [sampleUser1, sampleUser2, sampleUser3]
    conversations := [sampleDirectConv]
    messages := [sampleMsg]
    reactions := []
    reads := []
    admins := []
    nextId := 0
    now := 10 }

/-- Claim C7 counterexample: in a state with the direct conversation
c1 between u1 and u2, the existing non-participant actor u3 calling
removeParticipant gets NotFound (from the membership-scoped lookup),
not Forbidden, so "fails with Forbidden regardless of actor" is false
as stated. -/
theorem removeParticipant_direct_nonparticipant_cex :
    (removeParticipant sampleState "c1" "u3" "u1").1 =
      .error (.notFound "Conversation not found or access denied") ∧
    (findUser sampleState "u3").isSome = true ∧
    (∀ msg, (removeParticipant sampleState "c1" "u3" "u1").1 ≠
      .error (.forbidden msg)) := by
  refine ⟨rfl, rfl, ?_⟩
  intro msg h
  have hval : (removeParticipant sampleState "c1" "u3" "u1").1 =
      .error (.notFound "Conversation not found or access denied") := rfl
  rw [hval] at h
  simp at h

/-- Claim C7 (amended): on a direct conversation, removeParticipant
fails with Forbidden for every actor who passes the membership-scoped
lookup (every participant) and every target, leaving the state, hence
the participant set, unchanged; an actor for whom the lookup fails
(in particular every non-participant) instead fails with the single
NotFound error, also leaving the state unchanged. -/
theorem removeParticipant_direct_forbidden (s : ChatState)
    (cid uid pid : String) :
    (∀ conv, getConversationById s cid uid = .ok conv →
      conv.type = ConversationType.direct →
      removeParticipant s cid uid pid =
        (.error
          (.forbidden "Cannot remove participants from direct conversations"),
         s)) ∧
    (∀ e, getConversationById s cid uid = .error e →
      removeParticipant s cid uid pid = (.error e, s)) := by
  constructor
  · intro conv hconv hdirect
    simp only [removeParticipant, hconv]
    simp [hdirect]
  · intro e he
    simp only [removeParticipant, he]

/-- Helper: rewriting the socket set of a present user is seen by the
next lookup. -/
theorem lookupConnections_set (E : List (String × List String))
    (u : String) (v : List String)
    (h : (lookupConnections E u).isSome = true) :
    lookupConnections (setConnections E u v) u = some v := by
  induction E with
  | nil => simp [lookupConnections] at h
  | cons e es ih =>
    by_cases he : e.1 = u
    · simp [lookupConnections, setConnections, List.find?_cons, he]
    · have hne2 : (e.1 == u) = false := by simpa using he
      have hstep : setConnections (e :: es) u v = e :: setConnections es u v := by
        simp [setConnections, hne2]
        intro hcontra
        exact absurd hcontra he
      have hh : (lookupConnections es u).isSome = true := by
        rw [lookupConnections] at h
        rw [List.find?_cons_of_neg _ (by simp [hne2])] at h
        exact h
      rw [hstep, lookupConnections]
      rw [List.find?_cons_of_neg _ (by simp [hne2])]
      exact ih hh

/-- Helper: after the entry of a user is filtered out, lookup finds
nothing. -/
theorem lookupConnections_filter_ne (E : List (String × List String))
    (u : String) :
    lookupConnections (E.filter (fun e => e.1 != u)) u = none := by
  rw [lookupConnections]
  have hz : (E.filter (fun e => e.1 != u)).find? (fun e => e.1 == u) = none := by
    rw [List.find?_eq_none]
    intro x hx
    rw [List.mem_filter] at hx
    simpa using hx.2
  rw [hz]
  rfl

/-- Claim C5: a user with two live connections who loses one stays
online: no durable-status write and no broadcast happen while a
connection remains.  Losing the last connection removes the presence
entry entirely, writes the durable status offline once, and emits
exactly one user-offline broadcast. -/
theorem presence_two_connections (gs : GatewayState) (u c1 c2 : String)
    (t1 t2 : Nat)
    (h : lookupConnections gs.connectedUsers u = some [c1, c2])
    (_hne : c1 ≠ c2)
    (hon : ∀ usr ∈ gs.users, usr.id = u → usr.status = UserStatus.online) :
    (handleDisconnect gs u c1 t1).2 = [] ∧
    ((handleDisconnect gs u c1 t1).1).users = gs.users ∧
    (∀ usr ∈ ((handleDisconnect gs u c1 t1).1).users, usr.id = u →
      usr.status = UserStatus.online) ∧
    lookupConnections ((handleDisconnect gs u c1 t1).1).connectedUsers u =
      some [c2] ∧
    (handleDisconnect (handleDisconnect gs u c1 t1).1 u c2 t2).2 =
      [GatewayEvent.userOffline u] ∧
    lookupConnections
      ((handleDisconnect (handleDisconnect gs u c1 t1).1 u c2
        t2).1).connectedUsers u = none ∧
    ((handleDisconnect (handleDisconnect gs u c1 t1).1 u c2 t2).1).users =
      updateStatus gs.users u UserStatus.offline t2 ∧
    (∀ usr ∈ ((handleDisconnect (handleDisconnect gs u c1 t1).1 u c2
        t2).1).users, usr.id = u → usr.status = UserStatus.offline) := by
  have herase1 : ([c1, c2] : List String).erase c1 = [c2] := by
    simp [List.erase_cons]
  have e1 : handleDisconnect gs u c1 t1 =
      ({ gs with connectedUsers := setConnections gs.connectedUsers u [c2] },
       []) := by
    simp only [handleDisconnect, h, herase1]
    rfl
  have hl1 : lookupConnections
      (setConnections gs.connectedUsers u [c2]) u = some [c2] :=
    lookupConnections_set gs.connectedUsers u [c2] (by rw [h]; rfl)
  have e2 : handleDisconnect
      { gs with connectedUsers := setConnections gs.connectedUsers u [c2] }
      u c2 t2 =
      ({ connectedUsers :=
          (setConnections gs.connectedUsers u [c2]).filter (fun e => e.1 != u)
         users := updateStatus gs.users u UserStatus.offline t2 },
       [GatewayEvent.userOffline u]) := by
    simp only [handleDisconnect]
    rw [show lookupConnections
        ({ gs with connectedUsers :=
            setConnections gs.connectedUsers u [c2] } :
          GatewayState).connectedUsers u = some [c2] from hl1]
    simp [List.erase_cons]
  refine ⟨?_, ?_, ?_, ?_, ?_, ?_, ?_, ?_⟩
  · rw [e1]
  · rw [e1]
  · rw [e1]
    exact hon
  · rw [e1]
    exact hl1
  · rw [e1, e2]
  · rw [e1, e2]
    exact lookupConnections_filter_ne _ u
  · rw [e1, e2]
  · rw [e1, e2]
    intro usr hmem hid
    rw [updateStatus, List.mem_map] at hmem
    obtain ⟨x, hx, hfx⟩ := hmem
    by_cases hxu : x.id = u
    · rw [← hfx]
      simp [hxu]
    · rw [← hfx] at hid
      rw [if_neg (by simpa using hxu)] at hid
      exact absurd hid hxu

/-- Helper: createConversation mutates nothing when it fails. -/
theorem createConversation_error_state (s : ChatState) (uid : String)
    (dto : CreateConversationDto) (e : ChatError)
    (h : (createConversation s uid dto).1 = .error e) :
    (createConversation s uid dto).2 = s := by
  simp only [createConversation] at h ⊢
  split at h
  case isTrue hc =>
    rw [if_pos hc]
  case isFalse hc =>
    rw [if_neg hc]
    split at h
    case isTrue hc2 =>
      rw [if_pos hc2]
      split at h
      case h_1 c heq =>
        rfl
      case h_2 heq =>
        simp at h
    case isFalse hc2 =>
      rw [if_neg hc2]
      split at h
      case isTrue hc3 =>
        simp at h
      case isFalse hc3 =>
        simp at h

/-- Helper: updateConversation mutates nothing when it fails. -/
theorem updateConversation_error_state (s : ChatState) (cid uid : String)
    (dto : UpdateConversationDto) (e : ChatError)
    (h : (updateConversation s cid uid dto).1 = .error e) :
    (updateConversation s cid uid dto).2 = s := by
  cases hg : getConversationById s cid uid with
  | error e0 => rw [updateConversation, hg]
  | ok conv =>
    by_cases hcond : (conv.type != ConversationType.direct &&
        !isUserAdmin s cid uid) = true
    · simp only [updateConversation, hg, hcond, if_true]
    · rw [updateConversation, hg] at h
      simp [hcond] at h

/-- Helper: sendMessage mutates nothing when it fails. -/
theorem sendMessage_error_state (s : ChatState) (cid uid : String)
    (dto : SendMessageDto) (e : ChatError)
    (h : (sendMessage s cid uid dto).1 = .error e) :
    (sendMessage s cid uid dto).2 = s := by
  cases hg : getConversationById s cid uid with
  | error e0 => rw [sendMessage, hg]
  | ok conv =>
    rw [sendMessage, hg] at h
    simp at h

/-- Helper: editMessage mutates nothing when it fails. -/
theorem editMessage_error_state (s : ChatState) (mid uid content : String)
    (e : ChatError) (h : (editMessage s mid uid content).1 = .error e) :
    (editMessage s mid uid content).2 = s := by
  simp only [editMessage] at h ⊢
  split at h
  · rfl
  · simp at h

/-- Helper: deleteMessage mutates nothing when it fails. -/
theorem deleteMessage_error_state (s : ChatState) (mid uid : String)
    (e : ChatError) (h : (deleteMessage s mid uid).1 = .error e) :
    (deleteMessage s mid uid).2 = s := by
  cases hg : findMessage s mid with
  | none => rw [deleteMessage, hg]
  | some m =>
    by_cases hcond : (!(m.senderId == uid) &&
        !(isUserAdmin s m.conversationId uid)) = true
    · simp only [deleteMessage, hg, hcond, if_true]
    · rw [deleteMessage, hg] at h
      simp [hcond] at h

/-- Helper: reactToMessage mutates nothing when it fails. -/
theorem reactToMessage_error_state (s : ChatState) (mid uid em : String)
    (e : ChatError) (h : (reactToMessage s mid uid em).1 = .error e) :
    (reactToMessage s mid uid em).2 = s := by
  cases hg : findMessage s mid with
  | none => rw [reactToMessage, hg]
  | some m =>
    rw [reactToMessage, hg] at h
    cases hr : findReaction s mid uid em with
    | some r0 =>
      rw [hr] at h
      simp at h
    | none =>
      rw [hr] at h
      simp at h

/-- Helper: addParticipant mutates nothing when it fails. -/
theorem addParticipant_error_state (s : ChatState) (cid uid tid : String)
    (e : ChatError) (h : (addParticipant s cid uid tid).1 = .error e) :
    (addParticipant s cid uid tid).2 = s := by
  cases hg : getConversationById s cid uid with
  | error e0 => rw [addParticipant, hg]
  | ok conv =>
    by_cases h1 : (conv.type == ConversationType.direct) = true
    · simp only [addParticipant, hg, h1, if_true]
    · by_cases h2 : (!isUserAdmin s cid uid) = true
      · simp only [addParticipant, hg, h1, h2, if_true, if_false]
        rfl
      · cases hu : findUser s tid with
        | none =>
          simp only [addParticipant, hg, h1, h2, hu, if_false]
          rfl
        | some target =>
          rw [addParticipant, hg] at h
          simp [h1, h2, hu] at h

/-- Helper: removeParticipant mutates nothing when it fails. -/
theorem removeParticipant_error_state (s : ChatState) (cid uid pid : String)
    (e : ChatError) (h : (removeParticipant s cid uid pid).1 = .error e) :
    (removeParticipant s cid uid pid).2 = s := by
  cases hg : getConversationById s cid uid with
  | error e0 => rw [removeParticipant, hg]
  | ok conv =>
    by_cases h1 : (conv.type == ConversationType.direct) = true
    · simp only [removeParticipant, hg, h1, if_true]
    · by_cases h2 : (!isUserAdmin s cid uid && !(uid == pid)) = true
      · simp only [removeParticipant, hg, h1, h2, if_true, if_false]
        rfl
      · rw [removeParticipant, hg] at h
        simp [h1, h2] at h

/-- Claim C8: every core operation of the conversation service is
atomic with respect to failure: whenever a call returns an error of the
taxonomy (NotFound or Forbidden, for instance from the membership check
mid-flow), the durable state - users, conversations, participants,
admins, messages, reactions, read markers - is returned exactly as it
was before the call; every mutation the source performs comes after
the last possible error exit of its operation. -/
theorem core_ops_atomic_on_failure :
    (∀ s uid dto e, (createConversation s uid dto).1 = .error e →
      (createConversation s uid dto).2 = s) ∧
    (∀ s cid uid dto e, (updateConversation s cid uid dto).1 = .error e →
      (updateConversation s cid uid dto).2 = s) ∧
    (∀ s cid uid dto e, (sendMessage s cid uid dto).1 = .error e →
      (sendMessage s cid uid dto).2 = s) ∧
    (∀ s mid uid content e, (editMessage s mid uid content).1 = .error e →
      (editMessage s mid uid content).2 = s) ∧
    (∀ s mid uid e, (deleteMessage s mid uid).1 = .error e →
      (deleteMessage s mid uid).2 = s) ∧
    (∀ s mid uid em e, (reactToMessage s mid uid em).1 = .error e →
      (reactToMessage s mid uid em).2 = s) ∧
    (∀ s cid uid tid e, (addParticipant s cid uid tid).1 = .error e →
      (addParticipant s cid uid tid).2 = s) ∧
    (∀ s cid uid pid e, (removeParticipant s cid uid pid).1 = .error e →
      (removeParticipant s cid uid pid).2 = s) :=
  ⟨createConversation_error_state, updateConversation_error_state,
   sendMessage_error_state, editMessage_error_state,
   deleteMessage_error_state, reactToMessage_error_state,
   addParticipant_error_state, removeParticipant_error_state⟩

/-- Helper: the pair predicate of the direct-conversation query is
order-symmetric. -/
theorem directPairMatches_symm (c : Conversation) (u1 u2 : String) :
    directPairMatches c u1 u2 = directPairMatches c u2 u1 := by
  rw [directPairMatches, directPairMatches]
  have hp : (fun p => p == u1 || p == u2) = (fun p => p == u2 || p == u1) := by
    funext p
    exact Bool.or_comm _ _
  rw [hp]

/-- Helper: the direct-conversation lookup is order-symmetric. -/
theorem findDirectConversation_symm (s : ChatState) (u1 u2 : String) :
    findDirectConversation s u1 u2 = findDirectConversation s u2 u1 := by
  rw [findDirectConversation, findDirectConversation]
  have hp : (fun c => directPairMatches c u1 u2) =
      (fun c => directPairMatches c u2 u1) := by
    funext c
    exact directPairMatches_symm c u1 u2
  rw [hp]

/-- Helper: membership in a two-element list as a boolean. -/
theorem contains_pair (a x y : String) :
    (([x, y] : List String).contains a) = (a == x || a == y) := by
  by_cases ha : a = x
  · subst ha
    simp
  · by_cases hb : a = y
    · subst hb
      simp
    · have haf : (a == x) = false := by simpa using ha
      have hbf : (a == y) = false := by simpa using hb
      simp [ha, hb, haf, hbf]

/-- Helper: with unique user ids, exactly one row carries a present
id. -/
theorem countP_user_id_eq_one :
    ∀ (l : List User), (l.map User.id).Nodup → ∀ u, u ∈ l.map User.id →
      l.countP (fun x => x.id == u) = 1 := by
  intro l
  induction l with
  | nil =>
    intro _ u hu
    simp at hu
  | cons x xs ih =>
    intro h u hu
    rw [List.map_cons, List.nodup_cons] at h
    rw [List.map_cons, List.mem_cons] at hu
    rw [List.countP_cons]
    by_cases hx : x.id = u
    · have hz : xs.countP (fun y => y.id == u) = 0 := by
        rw [List.countP_eq_zero]
        intro y hy hbeq
        apply h.1
        rw [List.mem_map]
        refine ⟨y, hy, ?_⟩
        have : y.id = u := by simpa using hbeq
        rw [this, hx]
      simp [hz, hx]
    · rcases hu with hu | hu
      · exact absurd hu.symm hx
      · have hxf : (x.id == u) = false := by simpa using hx
        simp [hxf]
        exact ih h.2 u hu

/-- Helper: counting a disjoint pair of ids splits. -/
theorem countP_pair_users (l : List User) (u1 u2 : String) (hne : u1 ≠ u2) :
    l.countP (fun x => x.id == u1 || x.id == u2) =
      l.countP (fun x => x.id == u1) + l.countP (fun x => x.id == u2) := by
  induction l with
  | nil => simp
  | cons x xs ih =>
    rw [List.countP_cons, List.countP_cons, List.countP_cons, ih]
    by_cases h1 : x.id = u1
    · have h1t : (x.id == u1) = true := by simpa using h1
      have h2f : (x.id == u2) = false := by
        rw [h1]
        simpa using hne
      rw [h1t, h2f]
      simp
      omega
    · have h1f : (x.id == u1) = false := by simpa using h1
      by_cases h2 : x.id = u2
      · have h2t : (x.id == u2) = true := by simpa using h2
        rw [h1f, h2t]
        simp
        omega
      · have h2f : (x.id == u2) = false := by simpa using h2
        rw [h1f, h2f]
        simp

/-- Helper: the participant-validation filter finds exactly the two
users of a distinct existing pair. -/
theorem filter_pair_length (l : List User) (x y : String)
    (hnodup : (l.map User.id).Nodup) (hx : x ∈ l.map User.id)
    (hy : y ∈ l.map User.id) (hne : x ≠ y) :
    (l.filter (fun u => ([x, y] : List String).contains u.id)).length = 2 := by
  have hfun : (fun u : User => ([x, y] : List String).contains u.id) =
      (fun u : User => u.id == x || u.id == y) := by
    funext u
    exact contains_pair u.id x y
  rw [hfun, ← List.countP_eq_length_filter, countP_pair_users l x y hne,
    countP_user_id_eq_one l hnodup x hx, countP_user_id_eq_one l hnodup y hy]

/-- The conversation row the direct-creation branch inserts. -/
def newDirectConversation (s : ChatState) (userId : String)
    (dto : CreateConversationDto) : Conversation :=
  { id := s.freshId
    name := dto.name
    type := dto.type
    description := dto.description
    avatar := none
    isPrivate := dto.isPrivate.getD false
    createdBy := some userId
    lastActivity := some s.now
    participants := (s.users.filter (fun u =>
      (dedupFirst (userId :: dto.participantIds)).contains u.id)).map
      (fun u => u.id) }

/-- Helper: every id kept by the pair filter is one of the pair, so
the query filter keeps all of them. -/
theorem created_participants_filter (users : List User) (x y u1 u2 : String)
    (hxy : (x = u1 ∧ y = u2) ∨ (x = u2 ∧ y = u1)) :
    ((users.filter (fun u => ([x, y] : List String).contains u.id)).map
        (fun u => u.id)).filter (fun p => p == u1 || p == u2) =
      (users.filter (fun u => ([x, y] : List String).contains u.id)).map
        (fun u => u.id) := by
  rw [List.filter_eq_self]
  intro p hp
  rw [List.mem_map] at hp
  obtain ⟨u, hu, hup⟩ := hp
  rw [List.mem_filter] at hu
  have hc := hu.2
  rw [contains_pair] at hc
  rw [← hup]
  rcases hxy with ⟨hxu, hyu⟩ | ⟨hxu, hyu⟩
  · rw [← hxu, ← hyu]
    exact hc
  · rw [← hxu, ← hyu]
    rw [Bool.or_comm]
    exact hc

/-- Helper: how createConversation runs on a direct request whose
deduplicated pair consists of two existing users: it reduces to the
lookup-then-create on that pair. -/
theorem createConversation_direct_run (s : ChatState) (a : String)
    (dto : CreateConversationDto) (x y : String)
    (hd : dto.type = ConversationType.direct)
    (hp : dedupFirst (a :: dto.participantIds) = [x, y])
    (hval : (s.users.filter (fun u =>
      ([x, y] : List String).contains u.id)).length = 2) :
    createConversation s a dto =
      (match findDirectConversation s x y with
       | some existing => (.ok existing, s)
       | none =>
         (.ok (newDirectConversation s a dto),
          { s with
            conversations :=
              s.conversations ++ [newDirectConversation s a dto]
            nextId := s.nextId + 1 })) := by
  simp only [createConversation, newDirectConversation, hp, hval, hd]
  rfl

/-- Claim C1: for existing users u1 and u2 with u1 not u2, two
createConversation calls of type direct whose deduplicated participant
set is exactly the pair - in either order, from either requester -
return the same conversation: the first call either finds or creates
the direct conversation of the pair, and the second call finds that
conversation and returns it unchanged, creating nothing (the state
after the second call is the state after the first). -/
theorem createConversation_direct_dedup (s : ChatState)
    (u1 u2 a1 a2 : String) (dto1 dto2 : CreateConversationDto)
    (hnodup : (s.users.map User.id).Nodup)
    (hu1 : u1 ∈ s.users.map User.id) (hu2 : u2 ∈ s.users.map User.id)
    (hne : u1 ≠ u2)
    (hd1 : dto1.type = ConversationType.direct)
    (hp1 : dedupFirst (a1 :: dto1.participantIds) = [u1, u2] ∨
           dedupFirst (a1 :: dto1.participantIds) = [u2, u1])
    (hd2 : dto2.type = ConversationType.direct)
    (hp2 : dedupFirst (a2 :: dto2.participantIds) = [u1, u2] ∨
           dedupFirst (a2 :: dto2.participantIds) = [u2, u1]) :
    ∃ c s1, createConversation s a1 dto1 = (.ok c, s1) ∧
      createConversation s1 a2 dto2 = (.ok c, s1) := by
  obtain ⟨x1, y1, hxy1, hpe1⟩ : ∃ x y,
      ((x = u1 ∧ y = u2) ∨ (x = u2 ∧ y = u1)) ∧
      dedupFirst (a1 :: dto1.participantIds) = [x, y] := by
    rcases hp1 with hcase | hcase
    · exact ⟨u1, u2, Or.inl ⟨rfl, rfl⟩, hcase⟩
    · exact ⟨u2, u1, Or.inr ⟨rfl, rfl⟩, hcase⟩
  obtain ⟨x2, y2, hxy2, hpe2⟩ : ∃ x y,
      ((x = u1 ∧ y = u2) ∨ (x = u2 ∧ y = u1)) ∧
      dedupFirst (a2 :: dto2.participantIds) = [x, y] := by
    rcases hp2 with hcase | hcase
    · exact ⟨u1, u2, Or.inl ⟨rfl, rfl⟩, hcase⟩
    · exact ⟨u2, u1, Or.inr ⟨rfl, rfl⟩, hcase⟩
  have hmem1 : x1 ∈ s.users.map User.id ∧ y1 ∈ s.users.map User.id ∧
      x1 ≠ y1 := by
    rcases hxy1 with ⟨hx, hy⟩ | ⟨hx, hy⟩
    · rw [hx, hy]
      exact ⟨hu1, hu2, hne⟩
    · rw [hx, hy]
      exact ⟨hu2, hu1, fun hc => hne hc.symm⟩
  have hmem2 : x2 ∈ s.users.map User.id ∧ y2 ∈ s.users.map User.id ∧
      x2 ≠ y2 := by
    rcases hxy2 with ⟨hx, hy⟩ | ⟨hx, hy⟩
    · rw [hx, hy]
      exact ⟨hu1, hu2, hne⟩
    · rw [hx, hy]
      exact ⟨hu2, hu1, fun hc => hne hc.symm⟩
  have hval1 : (s.users.filter (fun u =>
      ([x1, y1] : List String).contains u.id)).length = 2 :=
    filter_pair_length s.users x1 y1 hnodup hmem1.1 hmem1.2.1 hmem1.2.2
  have hval2 : (s.users.filter (fun u =>
      ([x2, y2] : List String).contains u.id)).length = 2 :=
    filter_pair_length s.users x2 y2 hnodup hmem2.1 hmem2.2.1 hmem2.2.2
  have run1 := createConversation_direct_run s a1 dto1 x1 y1 hd1 hpe1 hval1
  have hfd1 : findDirectConversation s x1 y1 =
      findDirectConversation s u1 u2 := by
    rcases hxy1 with ⟨hx, hy⟩ | ⟨hx, hy⟩
    · rw [hx, hy]
    · rw [hx, hy]
      exact findDirectConversation_symm s u2 u1
  cases hfd : findDirectConversation s u1 u2 with
  | some c0 =>
    have run2 := createConversation_direct_run s a2 dto2 x2 y2 hd2 hpe2 hval2
    have hfd2 : findDirectConversation s x2 y2 =
        findDirectConversation s u1 u2 := by
      rcases hxy2 with ⟨hx, hy⟩ | ⟨hx, hy⟩
      · rw [hx, hy]
      · rw [hx, hy]
        exact findDirectConversation_symm s u2 u1
    refine ⟨c0, s, ?_, ?_⟩
    · rw [run1, hfd1, hfd]
    · rw [run2, hfd2, hfd]
  | none =>
    have hmatch : directPairMatches (newDirectConversation s a1 dto1)
        u1 u2 = true := by
      rw [directPairMatches, Bool.and_eq_true]
      constructor
      · rw [show (newDirectConversation s a1 dto1).type = dto1.type from rfl,
          hd1]
        rfl
      · have hpart : (newDirectConversation s a1 dto1).participants =
            (s.users.filter (fun u =>
              ([x1, y1] : List String).contains u.id)).map
              (fun u => u.id) := by
          rw [show (newDirectConversation s a1 dto1).participants =
            (s.users.filter (fun u =>
              (dedupFirst (a1 :: dto1.participantIds)).contains u.id)).map
              (fun u => u.id) from rfl, hpe1]
        rw [hpart, created_participants_filter s.users x1 y1 u1 u2 hxy1,
          List.length_map, hval1]
        rfl
    have hfind : findDirectConversation
        { s with
          conversations :=
            s.conversations ++ [newDirectConversation s a1 dto1]
          nextId := s.nextId + 1 } u1 u2 =
        some (newDirectConversation s a1 dto1) := by
      rw [findDirectConversation] at hfd ⊢
      show (s.conversations ++ [newDirectConversation s a1 dto1]).find?
        (fun c => directPairMatches c u1 u2) = _
      rw [find?_append_of_none hfd]
      simp [hmatch]
    have run2 := createConversation_direct_run
      { s with
        conversations := s.conversations ++ [newDirectConversation s a1 dto1]
        nextId := s.nextId + 1 } a2 dto2 x2 y2 hd2 hpe2 hval2
    have hfd2 : findDirectConversation
        { s with
          conversations :=
            s.conversations ++ [newDirectConversation s a1 dto1]
          nextId := s.nextId + 1 } x2 y2 =
        some (newDirectConversation s a1 dto1) := by
      rcases hxy2 with ⟨hx, hy⟩ | ⟨hx, hy⟩
      · rw [hx, hy]
        exact hfind
      · rw [hx, hy, findDirectConversation_symm]
        exact hfind
    refine ⟨newDirectConversation s a1 dto1,
      { s with
        conversations := s.conversations ++ [newDirectConversation s a1 dto1]
        nextId := s.nextId + 1 }, ?_, ?_⟩
    · rw [run1, hfd1, hfd]
    · rw [run2, hfd2]

/-- Additional fixtures: a state with three ascending live messages
and one soft-deleted message, a two-connection gateway state, and an
empty-conversation state for the direct-creation pair. -/
def msgA : Message :=
  { id := "a", content := "m1", type := MessageType.text,
    status := MessageStatus.sent, senderId := "u1", conversationId := "c1",
    replyToId := none, isEdited := false, editedAt := none,
    isDeleted := false, deletedAt := none, createdAt := 1 }

def msgB : Message :=
  { id := "b", content := "m2", type := MessageType.text,
    status := MessageStatus.sent, senderId := "u2", conversationId := "c1",
    replyToId := none, isEdited := false, editedAt := none,
    isDeleted := false, deletedAt := none, createdAt := 2 }

def msgC : Message :=
  { id := "c", content := "m3", type := MessageType.text,
    status := MessageStatus.sent, senderId := "u1", conversationId := "c1",
    replyToId := none, isEdited := false, editedAt := none,
    isDeleted := false, deletedAt := none, createdAt := 3 }

def msgDel : Message :=
  { id := "d", content := "gone", type := MessageType.text,
    status := MessageStatus.sent, senderId := "u1", conversationId := "c1",
    replyToId := none, isEdited := false, editedAt := none,
    isDeleted := true, deletedAt := some 9, createdAt := 4 }

def pagedState : ChatState :=
  { users := [sampleUser1, sampleUser2]
    conversations := [sampleDirectConv]
    messages := [msgA, msgB, msgDel, msgC]
    reactions := []
    reads := []
    admins := []
    nextId := 0
    now := 10 }

def onlineUser1 : User :=
  { id := "u1", username := "alice", status := UserStatus.online,
    lastSeen := some 2 }

def sampleGateway : GatewayState :=
  { connectedUsers := [("u1", ["s1", "s2"])]
    users := [onlineUser1, sampleUser2] }

def emptyConvState : ChatState :=
  { users := [sampleUser1, sampleUser2]
    conversations := []
    messages := []
    reactions := []
    reads := []
    admins := []
    nextId := 0
    now := 10 }

def directDto1 : CreateConversationDto :=
  { name := none, type := ConversationType.direct, description := none,
    participantIds := ["u2"], isPrivate := none }

def directDto2 : CreateConversationDto :=
  { name := none, type := ConversationType.direct, description := none,
    participantIds := ["u1"], isPrivate := none }

/-- Claim C1 witness: u1 creates the direct conversation with u2, then
u2 asks for one with u1 and receives the same conversation with the
state unchanged. -/
theorem createConversation_direct_dedup_witness :
    ∃ c s1, createConversation emptyConvState "u1" directDto1 = (.ok c, s1) ∧
      createConversation s1 "u2" directDto2 = (.ok c, s1) :=
  createConversation_direct_dedup emptyConvState "u1" "u2" "u1" "u2"
    directDto1 directDto2 (by decide) (by decide) (by decide) (by decide)
    rfl (Or.inl (by decide)) rfl (Or.inr (by decide))

/-- Claim C2 witness: the toggle run from the sample state, by the
non-sender u2, on message m1. -/
theorem reactToMessage_toggle_witness :
    ∃ r1,
      (reactToMessage sampleState "m1" "u2" "like").1 = .ok (some r1) ∧
      r1.messageId = "m1" ∧ r1.userId = "u2" ∧ r1.emoji = "like" ∧
      countReaction (reactToMessage sampleState "m1" "u2" "like").2
        "m1" "u2" "like" = 1 ∧
      (reactToMessage (reactToMessage sampleState "m1" "u2" "like").2 "m1"
        "u2" "like").1 = .ok none ∧
      ((reactToMessage (reactToMessage sampleState "m1" "u2" "like").2 "m1"
        "u2" "like").2).reactions = sampleState.reactions ∧
      countReaction (reactToMessage (reactToMessage sampleState "m1" "u2"
        "like").2 "m1" "u2" "like").2 "m1" "u2" "like" = 0 ∧
      ∃ r3,
        (reactToMessage (reactToMessage (reactToMessage sampleState "m1"
          "u2" "like").2 "m1" "u2" "like").2 "m1" "u2" "like").1 =
          .ok (some r3) ∧
        countReaction (reactToMessage (reactToMessage (reactToMessage
          sampleState "m1" "u2" "like").2 "m1" "u2" "like").2 "m1" "u2"
          "like").2 "m1" "u2" "like" = 1 :=
  reactToMessage_toggle sampleState "m1" "u2" "like" sampleMsg rfl rfl
    (by simp [sampleState])

/-- Claim C3 witness: marking the sample conversation read twice for
u2 from the sample state. -/
theorem markAsRead_idempotent_witness :
    markAsRead (markAsRead sampleState "c1" "u2").2 "c1" "u2" =
      markAsRead sampleState "c1" "u2" ∧
    (∀ mid u0, countRead (markAsRead sampleState "c1" "u2").2 mid u0 ≤ 1) ∧
    (∀ mid, (findRead sampleState mid "u2").isSome = true →
      countRead (markAsRead sampleState "c1" "u2").2 mid "u2" =
        countRead sampleState mid "u2") ∧
    (∀ mid, (∀ m ∈ sampleState.messages, ¬ (m.id = mid ∧
        m.conversationId = "c1")) →
      countRead (markAsRead sampleState "c1" "u2").2 mid "u2" =
        countRead sampleState mid "u2") :=
  markAsRead_idempotent sampleState "c1" "u2" (by decide)
    (by
      intro mid u0
      simp [countRead, sampleState])

/-- Claim C4 witness: pagination over msgA, msgB, msgC (with a
soft-deleted message interleaved) for participant u1. -/
theorem getMessages_pagination_witness :
    getMessages pagedState "c1" "u1" 1 2 = .ok ([msgB, msgC], 3) ∧
    (∀ page limit msgs total,
      getMessages pagedState "c1" "u1" page limit = .ok (msgs, total) →
      (∀ m ∈ msgs, m.isDeleted = false ∧ m.conversationId = "c1") ∧
      total = (pagedState.messages.filter (fun m =>
        m.conversationId == "c1" && m.isDeleted == false)).length) :=
  getMessages_pagination pagedState "c1" "u1" sampleDirectConv rfl
    msgA msgB msgC rfl (by decide) (by decide)

/-- Claim C5 witness: u1 online with sockets s1 and s2; dropping s1
keeps u1 online with no broadcast, dropping s2 then goes offline with
exactly one broadcast. -/
theorem presence_two_connections_witness :
    (handleDisconnect sampleGateway "u1" "s1" 3).2 = [] ∧
    ((handleDisconnect sampleGateway "u1" "s1" 3).1).users =
      sampleGateway.users ∧
    (∀ usr ∈ ((handleDisconnect sampleGateway "u1" "s1" 3).1).users,
      usr.id = "u1" → usr.status = UserStatus.online) ∧
    lookupConnections
      ((handleDisconnect sampleGateway "u1" "s1" 3).1).connectedUsers "u1" =
      some ["s2"] ∧
    (handleDisconnect (handleDisconnect sampleGateway "u1" "s1" 3).1 "u1"
      "s2" 4).2 = [GatewayEvent.userOffline "u1"] ∧
    lookupConnections
      ((handleDisconnect (handleDisconnect sampleGateway "u1" "s1" 3).1 "u1"
        "s2" 4).1).connectedUsers "u1" = none ∧
    ((handleDisconnect (handleDisconnect sampleGateway "u1" "s1" 3).1 "u1"
      "s2" 4).1).users =
      updateStatus sampleGateway.users "u1" UserStatus.offline 4 ∧
    (∀ usr ∈ ((handleDisconnect (handleDisconnect sampleGateway "u1" "s1"
        3).1 "u1" "s2" 4).1).users, usr.id = "u1" →
      usr.status = UserStatus.offline) :=
  presence_two_connections sampleGateway "u1" "s1" "s2" 3 4 rfl (by decide)
    (by decide)

/-- Claim C6 witness: the sample message was sent by u1, so u2 editing
it hits the non-sender branch and u1 editing it succeeds. -/
theorem editMessage_sender_scoped_witness :
    (sampleMsg.senderId ≠ "u2" →
      editMessage sampleState "m1" "u2" "edited" =
        (.error (.notFound "Message not found or access denied"),
         sampleState)) ∧
    (sampleMsg.senderId = "u2" →
      ∃ m', (editMessage sampleState "m1" "u2" "edited").1 =
          .ok (some (m', findUser sampleState sampleMsg.senderId)) ∧
        m'.id = sampleMsg.id ∧ m'.content = "edited" ∧ m'.isEdited = true ∧
        m'.editedAt = some sampleState.now ∧
        m'.senderId = sampleMsg.senderId) :=
  editMessage_sender_scoped sampleState "m1" "u2" "edited" (by decide)
    sampleMsg rfl

/-- Claim C7 witness: participant u2 of the direct conversation c1
gets Forbidden and the state is unchanged. -/
theorem removeParticipant_direct_forbidden_witness :
    removeParticipant sampleState "c1" "u2" "u1" =
      (.error
        (.forbidden "Cannot remove participants from direct conversations"),
       sampleState) :=
  (removeParticipant_direct_forbidden sampleState "c1" "u2" "u1").1
    sampleDirectConv rfl rfl

/-- Claim C8 witness: sending into a conversation the sender is not a
member of fails, and the state is returned untouched. -/
theorem core_ops_atomic_on_failure_witness :
    (sendMessage sampleState "cX" "u1"
      { content := "hi", type := MessageType.text, replyToId := none }).2 =
      sampleState :=
  core_ops_atomic_on_failure.2.2.1 sampleState "cX" "u1"
    { content := "hi", type := MessageType.text, replyToId := none }
    (.notFound "Conversation not found or access denied") rfl

/-- Claim C9 witness: u3 is not a participant of c1, yet reacting to
message m1 succeeds and creates the reaction. -/
theorem reactToMessage_no_membership_check_witness :
    ∃ r, (reactToMessage sampleState "m1" "u3" "like").1 = .ok (some r) ∧
      r.messageId = "m1" ∧ r.userId = "u3" ∧ r.emoji = "like" :=
  ((reactToMessage_no_membership_check sampleState "m1" "u3" "like").2.2
    sampleMsg rfl).2 rfl

/-- Claim C10 witness: u3 is not a participant of c1, yet markAsRead
succeeds and marks message m1 read for u3. -/
theorem markAsRead_no_membership_check_witness :
    (markAsRead sampleState "c1" "u3").1 = .ok () ∧
    (findRead (markAsRead sampleState "c1" "u3").2 "m1" "u3").isSome =
      true :=
  ⟨(markAsRead_no_membership_check sampleState "c1" "u3").1,
   (markAsRead_no_membership_check sampleState "c1" "u3").2.1 sampleMsg
     (by simp [sampleState]) rfl⟩

end ChatApi
